import Mathlib

/-
Verification development for the ts-env repository: a schema-driven
environment-variable validation engine. The definitions below are a shallow
embedding of src/environment.ts, src/error.ts and src/types/variable.ts.
JavaScript numbers are modelled as exact rationals extended with NaN and the
infinities; the JavaScript builtins used by the code (Number(), trim,
toLowerCase, RegExp) are modelled explicitly where the claims depend on them.
-/

namespace TsEnv

/-- Result container from the ts-core boundary: success with a value or failure
with an error. -/
inductive Result (α ε : Type) where
| ok (v : α)
| err (e : ε)
deriving DecidableEq

/-- Result.map from the ts-core boundary: transform the success value. -/
def Result.map {α β ε : Type} (f : α → β) : Result α ε → Result β ε
| .ok v => .ok (f v)
| .err e => .err e

/-- Result.mapErr from the ts-core boundary: transform the error value. -/
def Result.mapErr {α ε δ : Type} (f : ε → δ) : Result α ε → Result α δ
| .ok v => .ok v
| .err e => .err (f e)

/-- Exact fraction with an integer numerator and a positive natural
denominator; every construction below produces a positive denominator. Kept
unreduced so that all arithmetic reduces in the kernel; every compared value
arises from the same deterministic constructions, so representation equality
is adequate. -/
structure Frac where
num : Int
den : Nat
deriving DecidableEq

/-- JavaScript number modelled as an exact fraction extended with NaN and the
signed infinities. -/
inductive JSNum where
| nan
| inf (neg : Bool)
| fin (f : Frac)
deriving DecidableEq

/-- Model of the isNaN builtin. -/
def JSNum.isNaN : JSNum → Bool
| .nan => true
| _ => false

/-- Model of Number.isInteger: a finite value that is a mathematical
integer. -/
def JSNum.isInteger : JSNum → Bool
| .fin f => f.num % (f.den : Int) == 0
| _ => false

/-- Model of the JavaScript strict less-than on numbers: false whenever either
side is NaN. -/
def JSNum.jlt : JSNum → JSNum → Bool
| .nan, _ => false
| _, .nan => false
| .inf a, .inf b => a && !b
| .inf a, .fin _ => a
| .fin _, .inf b => !b
| .fin p, .fin q => decide (p.num * (q.den : Int) < q.num * (p.den : Int))

/-- Model of JavaScript unary minus on numbers (negative zero collapsed to
zero). -/
def JSNum.neg : JSNum → JSNum
| .nan => .nan
| .inf b => .inf (!b)
| .fin f => .fin ⟨-f.num, f.den⟩

/-- Model of Char lowercasing as used by toLowerCase, ASCII portion. -/
def charToLower (c : Char) : Char :=
if 65 ≤ c.toNat ∧ c.toNat ≤ 90 then Char.ofNat (c.toNat + 32) else c

/-- Model of String.prototype.toLowerCase for ASCII strings. -/
def jsToLower (s : String) : String :=
String.mk (s.data.map charToLower)

/-- Whitespace characters recognised by the JavaScript string-to-number
conversion and by String.prototype.trim (ASCII portion). -/
def isJsSpace (c : Char) : Bool :=
c == ' ' || c == '\t' || c == '\n' || c == '\r' || c == '\x0b' || c == '\x0c'

/-- Drop leading and trailing whitespace from a character list. -/
def jsTrimList (l : List Char) : List Char :=
((l.dropWhile isJsSpace).reverse.dropWhile isJsSpace).reverse

/-- Model of String.prototype.trim. -/
def jsTrim (s : String) : String :=
String.mk (jsTrimList s.data)

/-- Value of a list of decimal digit characters. -/
def digitsToNat (l : List Char) : Nat :=
l.foldl (fun a c => 10 * a + (c.toNat - 48)) 0

/-- Scale a digit value by a signed power of ten, as a fraction. -/
def applyExp (m : Nat) : Int → Frac
| .ofNat n => ⟨(m * 10 ^ n : Nat), 1⟩
| .negSucc n => ⟨(m : Int), 10 ^ (n + 1)⟩

/-- Parse a nonempty all-digit exponent. -/
def expDigits (l : List Char) : Option Int :=
if l.isEmpty then none
else if l.all Char.isDigit then some (digitsToNat l : Int) else none

/-- Parse the optional exponent suffix of a decimal literal; the whole rest of
the input must be consumed. -/
def parseExpPart : List Char → Option Int
| [] => some 0
| c :: rest =>
  if c == 'e' || c == 'E' then
    match rest with
    | '+' :: ds => expDigits ds
    | '-' :: ds => (expDigits ds).map Neg.neg
    | ds => expDigits ds
  else none

/-- Parse an unsigned decimal literal (digits, optional fraction, optional
exponent) covering the whole input. -/
def parseDecimalLit (l : List Char) : Option Frac :=
let ip := l.takeWhile Char.isDigit
let r1 := l.dropWhile Char.isDigit
match r1 with
| '.' :: r2 =>
  let fp := r2.takeWhile Char.isDigit
  let r3 := r2.dropWhile Char.isDigit
  if ip.isEmpty && fp.isEmpty then none
  else (parseExpPart r3).map (fun e => applyExp (digitsToNat (ip ++ fp)) (e - fp.length))
| _ =>
  if ip.isEmpty then none
  else (parseExpPart r1).map (fun e => applyExp (digitsToNat ip) e)

/-- Value of a hexadecimal digit character, if any. -/
def hexVal (c : Char) : Option Nat :=
if c.isDigit then some (c.toNat - 48)
else if 97 ≤ c.toNat ∧ c.toNat ≤ 102 then some (c.toNat - 87)
else if 65 ≤ c.toNat ∧ c.toNat ≤ 70 then some (c.toNat - 55)
else none

/-- Parse a nonempty digit string in the given radix, as in the 0x, 0o and 0b
forms accepted by Number(). -/
def parseRadix (b : Nat) (ds : List Char) : JSNum :=
if ds.isEmpty then .nan
else if ds.all (fun c => match hexVal c with | some v => decide (v < b) | none => false) then
  .fin ⟨(ds.foldl (fun a c => b * a + (hexVal c).getD 0) 0 : Nat), 1⟩
else .nan

/-- Parse an unsigned numeric literal: the Infinity keyword or a decimal
literal. -/
def parseUnsigned (l : List Char) : Option JSNum :=
if l == "Infinity".data then some (.inf false)
else (parseDecimalLit l).map (fun f => .fin f)

/-- Parse a complete trimmed numeric literal as the Number() builtin does:
empty means zero, an optional sign on decimal forms, and the unsigned
hexadecimal, octal and binary forms. -/
def parseNumericLiteral : List Char → JSNum
| [] => .fin ⟨0, 1⟩
| '+' :: rest => match parseUnsigned rest with | some n => n | none => .nan
| '-' :: rest => match parseUnsigned rest with | some n => n.neg | none => .nan
| '0' :: c :: rest =>
  if c == 'x' || c == 'X' then parseRadix 16 rest
  else if c == 'o' || c == 'O' then parseRadix 8 rest
  else if c == 'b' || c == 'B' then parseRadix 2 rest
  else match parseUnsigned ('0' :: c :: rest) with | some n => n | none => .nan
| l => match parseUnsigned l with | some n => n | none => .nan

/-- Model of the Number() builtin applied to a string: trim, then parse the
numeric literal; values are exact rationals rather than rounded doubles. -/
def jsToNumber (s : String) : JSNum :=
parseNumericLiteral (jsTrimList s.data)

/-- Check that one character list occurs as a leading segment of another. -/
def beginsWith : List Char → List Char → Bool
| [], _ => true
| _ :: _, [] => false
| a :: as, b :: bs => a == b && beginsWith as bs

/-- Check that one character list occurs contiguously inside another. -/
def containsSeq (p : List Char) : List Char → Bool
| [] => p.isEmpty
| c :: rest => beginsWith p (c :: rest) || containsSeq p rest

/-- Model of a compiled JavaScript RegExp object, identified by its source
text. -/
structure JSRegExp where
src : String
deriving DecidableEq

/-- Model of RegExp.prototype.test for metacharacter-free sources: an
unanchored search for the literal source text. -/
def JSRegExp.test (r : JSRegExp) (s : String) : Bool :=
containsSeq r.src.data s.data

/-- Scan for balanced parentheses keeping the current depth. -/
def parenDepthOk : List Char → Nat → Bool
| [], 0 => true
| [], _ + 1 => false
| '(' :: r, d => parenDepthOk r (d + 1)
| ')' :: r, d => match d with | 0 => false | e + 1 => parenDepthOk r e
| _ :: r, d => parenDepthOk r d

/-- Model of RegExp source validity: the new RegExp builtin throws a
SyntaxError on an invalid source. The modelled class of invalid sources is
unbalanced parentheses; other invalid forms and escape sequences are not
modelled and count as valid. -/
def regExpSrcValid (s : String) : Bool :=
parenDepthOk s.data 0

/-- Pattern field of a string config: a precompiled RegExp object or its
source text, as in the RegExp-or-string union of the source. -/
inductive JSPattern where
| regex (r : JSRegExp)
| text (src : String)
deriving DecidableEq

/-- Compile a pattern as parseAsString does: a string source goes through the
new RegExp builtin, which throws (modelled as none) on an invalid source; a
precompiled object is used as is. -/
def compilePattern : JSPattern → Option JSRegExp
| .regex r => some r
| .text s => if regExpSrcValid s then some ⟨s⟩ else none

/-- Number format field of a number config. -/
inductive NumberFormat where
| integer
| decimal
deriving DecidableEq

/-- StringEnvironmentVariableConfig from the source (the type discriminator is
carried by the surrounding sum). -/
structure StringEnvironmentVariableConfig where
default : Option String
pattern : Option JSPattern
shouldAllowEmpty : Option Bool
deriving DecidableEq

/-- NumberEnvironmentVariableConfig from the source. -/
structure NumberEnvironmentVariableConfig where
default : Option JSNum
format : Option NumberFormat
min : Option JSNum
max : Option JSNum
deriving DecidableEq

/-- BooleanEnvironmentVariableConfig from the source. -/
structure BooleanEnvironmentVariableConfig where
default : Option Bool
validTrueValues : Option (List String)
validFalseValues : Option (List String)
deriving DecidableEq

/-- Enum field of an enum config: an array of permitted strings or an
enum-like mapping whose values are the permitted strings. -/
inductive EnumSource where
| arr (values : List String)
| obj (pairs : List (String × String))
deriving DecidableEq

/-- EnumEnvironmentVariableConfig from the source. -/
structure EnumEnvironmentVariableConfig where
default : Option String
enumSource : EnumSource
deriving DecidableEq

/-- Opaque Duration value object: Duration.from(value, unit) from the ts-core
boundary. -/
structure DurationVal where
value : JSNum
unit : String
deriving DecidableEq

/-- DurationEnvironmentVariableConfig from the source. -/
structure DurationEnvironmentVariableConfig where
default : Option DurationVal
unit : String
deriving DecidableEq

/-- EnvironmentVariableConfig: the tagged union of the five variable kinds. -/
inductive EnvironmentVariableConfig where
| string (cfg : StringEnvironmentVariableConfig)
| number (cfg : NumberEnvironmentVariableConfig)
| boolean (cfg : BooleanEnvironmentVariableConfig)
| enum (cfg : EnumEnvironmentVariableConfig)
| duration (cfg : DurationEnvironmentVariableConfig)
deriving DecidableEq

/-- Typed value of an environment variable. -/
inductive EnvValue where
| str (s : String)
| num (n : JSNum)
| bool (b : Bool)
| enumv (s : String)
| duration (d : DurationVal)
deriving DecidableEq

/-- The optional default carried by a config, injected into the value type. -/
def EnvironmentVariableConfig.defaultValue : EnvironmentVariableConfig → Option EnvValue
| .string c => c.default.map EnvValue.str
| .number c => c.default.map EnvValue.num
| .boolean c => c.default.map EnvValue.bool
| .enum c => c.default.map EnvValue.enumv
| .duration c => c.default.map EnvValue.duration

/-- EnvironmentErrorType from src/types/error.ts. -/
inductive EnvironmentErrorType where
| variableNotFoundError
| variableParseError
| variableUnknownError
deriving DecidableEq

/-- EnvironmentError from src/error.ts: kind, key, optional config, optional
raw value and a mutable message. The msgOverrides field is ghost
instrumentation counting how many times the fluent withMessage setter has been
applied to the error; it changes no observable behaviour. -/
structure EnvironmentError where
type : EnvironmentErrorType
key : String
config : Option EnvironmentVariableConfig
raw : Option String
message : String
msgOverrides : Nat
deriving DecidableEq

/-- Model of the EnvironmentError constructor: the message is initialised to
the generic text and no override has happened yet. -/
def EnvironmentError.create (t : EnvironmentErrorType) (key : String)
    (config : Option EnvironmentVariableConfig) (raw : Option String) : EnvironmentError :=
⟨t, key, config, raw, "Error getting environment variable " ++ key, 0⟩

/-- Model of the fluent withMessage setter: replaces the message and bumps the
ghost override counter. -/
def EnvironmentError.withMessage (e : EnvironmentError) (m : String) : EnvironmentError :=
⟨e.type, e.key, e.config, e.raw, m, e.msgOverrides + 1⟩

/-- The injectable key-value store backing the variables. -/
abbrev Store := String → Option String

/-- The schema: an object mapping variable names to configs, modelled as an
association list so that the snapshot iteration order is explicit. -/
abbrev EnvironmentConfig := List (String × EnvironmentVariableConfig)

/-- Object property lookup on the schema. -/
def lookupConfig (config : EnvironmentConfig) (key : String) : Option EnvironmentVariableConfig :=
(config.find? (fun p => p.1 == key)).map Prod.snd

/-- Model of Environment.set: write directly into the store, undefined
clears. -/
def setVar (store : Store) (key : String) (v : Option String) : Store :=
fun k => if k = key then v else store k

/-- Model of Environment.getRaw: a raw store lookup only. -/
def getRaw (store : Store) (key : String) : Option String :=
store key

/-- Model of Environment.unset. -/
def unsetVar (store : Store) (key : String) : Store :=
setVar store key none

/-- DEFAULT_VALID_TRUE_VALUES from the source. -/
def DEFAULT_VALID_TRUE_VALUES : List String := ["true", "1", "yes", "y"]

/-- DEFAULT_VALID_FALSE_VALUES from the source. -/
def DEFAULT_VALID_FALSE_VALUES : List String := ["false", "0", "no", "n"]

/-- Environment.parseAsBoolean from the source: the raw value is lowercased
and looked up verbatim in the configured lists. -/
def parseAsBoolean (raw : String) (cfg : BooleanEnvironmentVariableConfig) : Result Bool String :=
let validFalseValues := cfg.validFalseValues.getD DEFAULT_VALID_FALSE_VALUES
let validTrueValues := cfg.validTrueValues.getD DEFAULT_VALID_TRUE_VALUES
if validTrueValues.contains (jsToLower raw) then .ok true
else if validFalseValues.contains (jsToLower raw) then .ok false
else .err "the value is not a boolean"

/-- Environment.parseAsNumber from the source: Number() conversion followed by
the NaN, integer-format, min and max checks in that order. -/
def parseAsNumber (raw : String) (cfg : NumberEnvironmentVariableConfig) : Result JSNum String :=
let parsed := jsToNumber raw
if parsed.isNaN then .err "the value is not a number"
else if cfg.format == some NumberFormat.integer && !parsed.isInteger then
  .err "the value is not an integer"
else if cfg.min.any (fun m => parsed.jlt m) then .err "the value is less than the minimum"
else if cfg.max.any (fun m => m.jlt parsed) then .err "the value is greater than the maximum"
else .ok parsed

/-- Environment.parseAsDuration from the source: delegate to the number parser
with an unconstrained number config, then wrap with the configured unit. -/
def parseAsDuration (raw : String) (cfg : DurationEnvironmentVariableConfig) : Result DurationVal String :=
(parseAsNumber raw ⟨none, none, none, none⟩).map (fun n => ⟨n, cfg.unit⟩)

/-- Permitted values of an enum config: the array itself or the values of the
enum-like mapping. -/
def enumValues : EnumSource → List String
| .arr vs => vs
| .obj ps => ps.map Prod.snd

/-- Environment.parseAsEnum from the source: exact string membership. -/
def parseAsEnum (raw : String) (cfg : EnumEnvironmentVariableConfig) : Result String String :=
if (enumValues cfg.enumSource).contains raw then .ok raw
else .err "the value is not in the enum"

/-- Environment.parseAsString from the source. The outer Option models the
JavaScript exception channel: none means the new RegExp builtin threw on an
invalid text pattern. -/
def parseAsString (raw : String) (cfg : StringEnvironmentVariableConfig) :
    Option (Result String String) :=
match cfg.pattern with
| some p =>
  match compilePattern p with
  | none => none
  | some compiled =>
    if !(compiled.test raw) then some (.err "the value does not match the pattern")
    else some (.ok raw)
| none =>
  if cfg.shouldAllowEmpty != some true && jsTrim raw == "" then some (.err "the value is empty")
  else some (.ok raw)

/-- Environment.constructResult from the source, applied form: wrap a parser
failure into a VariableParseError with the composed message. -/
def constructResult {T : Type} (parsed : Result T String) (key : String)
    (cfg : EnvironmentVariableConfig) (raw : String) : Result T EnvironmentError :=
parsed.mapErr (fun e =>
  (EnvironmentError.create EnvironmentErrorType.variableParseError key (some cfg) (some raw)).withMessage
    ("Error parsing env var " ++ key ++ ": " ++ e))

/-- Environment.getInner from the source: unknown key, then missing value with
default or not-found, then dispatch on the type tag. The outer Option models
the JavaScript exception channel (none only when a text pattern fails to
compile). -/
def getInner (config : EnvironmentConfig) (store : Store) (key : String) :
    Option (Result EnvValue EnvironmentError) :=
match lookupConfig config key with
| none =>
  some (.err ((EnvironmentError.create EnvironmentErrorType.variableUnknownError key none none).withMessage
    "The environment variable is not defined in the configuration. Please check the configuration."))
| some cfg =>
  match store key with
  | none =>
    match cfg.defaultValue with
    | some d => some (.ok d)
    | none =>
      some (.err (EnvironmentError.create EnvironmentErrorType.variableNotFoundError key (some cfg) none))
  | some raw =>
    match cfg with
    | .string scfg =>
      (parseAsString raw scfg).map (fun r => constructResult (r.map EnvValue.str) key cfg raw)
    | .number ncfg => some (constructResult ((parseAsNumber raw ncfg).map EnvValue.num) key cfg raw)
    | .boolean bcfg => some (constructResult ((parseAsBoolean raw bcfg).map EnvValue.bool) key cfg raw)
    | .enum ecfg => some (constructResult ((parseAsEnum raw ecfg).map EnvValue.enumv) key cfg raw)
    | .duration dcfg =>
      some (constructResult ((parseAsDuration raw dcfg).map EnvValue.duration) key cfg raw)

/-- Environment.get from the source: a direct call to getInner. -/
def get (config : EnvironmentConfig) (store : Store) (key : String) :
    Option (Result EnvValue EnvironmentError) :=
getInner config store key

/-- Environment.getExpect from the source: optionally replace the message of a
failure, then unwrap; an error result becomes a fatal raise of the carried
error, modelled as the Except error branch. -/
def getExpect (config : EnvironmentConfig) (store : Store) (key : String)
    (message : Option String) : Option (Except EnvironmentError EnvValue) :=
(getInner config store key).map (fun r =>
  match r with
  | .ok v => Except.ok v
  | .err e =>
    match message with
    | some m => Except.error (e.withMessage m)
    | none => Except.error e)

/-- Iteration core of Environment.snapshot: unwrap every key in schema order;
the first error result aborts the iteration by a fatal raise of that error. -/
def snapshotAux (config : EnvironmentConfig) (store : Store) :
    List (String × EnvironmentVariableConfig) → Option (Except EnvironmentError (List (String × EnvValue)))
| [] => some (Except.ok [])
| p :: rest =>
  match getInner config store p.1 with
  | none => none
  | some (.err e) => some (Except.error e)
  | some (.ok v) =>
    match snapshotAux config store rest with
    | none => none
    | some (Except.error e) => some (Except.error e)
    | some (Except.ok l) => some (Except.ok ((p.1, v) :: l))

/-- Environment.snapshot from the source. -/
def snapshot (config : EnvironmentConfig) (store : Store) :
    Option (Except EnvironmentError (List (String × EnvValue))) :=
snapshotAux config store config

/-- First loop of Environment.withVars: record the current raw value (via
getRaw, before the override is applied) of each override key and apply the
override via set, in order; yields the saved entries in iteration order and
the overridden store. -/
def saveAndSet (store : Store) : List (String × Option String) →
    (List (String × Option String)) × Store
| [] => ([], store)
| p :: rest =>
  ((p.1, getRaw store p.1) :: (saveAndSet (setVar store p.1 p.2) rest).1,
    (saveAndSet (setVar store p.1 p.2) rest).2)

/-- Environment.withVars from the source: save and set the overrides, run the
function (modelled as a store transformer paired with its return value), then
restore every saved raw value via set and return the function result. -/
def withVars {Res : Type} (store : Store) (vars : List (String × Option String))
    (fn : Store → Store × Res) : Store × Res :=
((saveAndSet store vars).1.foldl (fun s p => setVar s p.1 p.2)
    (fn (saveAndSet store vars).2).1,
  (fn (saveAndSet store vars).2).2)

/-- Spec-side definition, from the claim wording only: membership of the raw
value in a list of strings under case-insensitive comparison. -/
def specCaseInsensitiveMember (raw : String) (l : List String) : Bool :=
l.any (fun v => jsToLower v == jsToLower raw)


/-- Projection: the error carried by a failed get outcome, if any. -/
def errOf : Option (Result EnvValue EnvironmentError) → Option EnvironmentError
| some (.err e) => some e
| _ => none

/-- Projection: the value carried by a successful get outcome, if any. -/
def getOk : Option (Result EnvValue EnvironmentError) → Option EnvValue
| some (.ok v) => some v
| _ => none

/-- Projection: the error fatally raised by an unwrap outcome, if any. -/
def raisedError : Option (Except EnvironmentError EnvValue) → Option EnvironmentError
| some (Except.error e) => some e
| _ => none

/-- Condition under which the modelled RegExp compilation in the consulted
config cannot throw: the looked-up config is not a string config with a text
pattern of invalid source. -/
def consultedPatternCompiles (config : EnvironmentConfig) (key : String) : Bool :=
match lookupConfig config key with
| some (.string scfg) =>
  match scfg.pattern with
  | some p => (compilePattern p).isSome
  | none => true
| _ => true

example : jsToNumber "42" = .fin ⟨42, 1⟩ := by decide
example : jsToNumber "" = .fin ⟨0, 1⟩ := by decide
example : jsToNumber "  " = .fin ⟨0, 1⟩ := by decide
example : jsToNumber "42.5" = .fin ⟨425, 10⟩ := by decide
example : jsToNumber "not a number" = .nan := by decide
example : jsToNumber "-3" = .fin ⟨-3, 1⟩ := by decide
example : jsToNumber "0x10" = .fin ⟨16, 1⟩ := by decide
example : jsToNumber "1e2" = .fin ⟨100, 1⟩ := by decide
example : jsToNumber ".5" = .fin ⟨5, 10⟩ := by decide
example : jsToNumber "Infinity" = .inf false := by decide
example : jsToNumber "5." = .fin ⟨5, 1⟩ := by decide
example : jsToNumber "1.2.3" = .nan := by decide
example : jsToNumber "0x" = .nan := by decide
example : jsToNumber "-0x1" = .nan := by decide
example : jsToNumber "1e-2" = .fin ⟨1, 100⟩ := by decide
example : (JSNum.fin ⟨425, 10⟩).isInteger = false := by decide
example : (JSNum.fin ⟨40, 10⟩).isInteger = true := by decide
example : JSNum.jlt (.fin ⟨1, 2⟩) (.fin ⟨2, 3⟩) = true := by decide
example : parseAsNumber "42" ⟨none, none, none, none⟩ = .ok (.fin ⟨42, 1⟩) := by decide
example : parseAsNumber "0" ⟨none, none, some (.fin ⟨1, 1⟩), none⟩
    = .err "the value is less than the minimum" := by decide
example : parseAsBoolean "YES" ⟨none, none, none⟩ = .ok true := by decide
example : parseAsString "" ⟨none, none, none⟩ = some (.err "the value is empty") := by decide
example : parseAsString "" ⟨none, none, some true⟩ = some (.ok "") := by decide
example : parseAsString "x" ⟨none, some (.text "("), none⟩ = none := by decide

/-- C1: for every schema key whose config has a default and whose store entry
is absent (undefined), get succeeds with exactly that default, never invoking
the type parser, even when the default would fail the validation rules of its
own variable. -/
theorem claim1_default_skips_parsing (config : EnvironmentConfig) (store : Store)
    (key : String) (cfg : EnvironmentVariableConfig) (d : EnvValue)
    (hc : lookupConfig config key = some cfg) (hs : store key = none)
    (hd : cfg.defaultValue = some d) :
    get config store key = some (.ok d) := by
  simp [get, getInner, hc, hs, hd]

/-- Witness for C1 at a number config whose default 3 violates its own minimum
5: the parser would reject it, yet get succeeds with the default. -/
theorem claim1_witness :
    parseAsNumber "3" ⟨some (.fin ⟨3, 1⟩), none, some (.fin ⟨5, 1⟩), none⟩
        = .err "the value is less than the minimum"
    ∧ get [("PORT", .number ⟨some (.fin ⟨3, 1⟩), none, some (.fin ⟨5, 1⟩), none⟩)]
        (fun _ => none) "PORT" = some (.ok (.num (.fin ⟨3, 1⟩))) :=
  ⟨by decide,
    claim1_default_skips_parsing
      [("PORT", .number ⟨some (.fin ⟨3, 1⟩), none, some (.fin ⟨5, 1⟩), none⟩)]
      (fun _ => none) "PORT"
      (.number ⟨some (.fin ⟨3, 1⟩), none, some (.fin ⟨5, 1⟩), none⟩)
      (.num (.fin ⟨3, 1⟩)) (by decide) rfl (by decide)⟩

/-- C5: for every key with no entry in the schema, get fails with a
VariableUnknownError regardless of the store contents, and the error carries
no config. -/
theorem claim5_unknown_key (config : EnvironmentConfig) (store : Store) (key : String)
    (h : lookupConfig config key = none) :
    (errOf (get config store key)).isSome = true
    ∧ (errOf (get config store key)).map EnvironmentError.type
        = some EnvironmentErrorType.variableUnknownError
    ∧ (errOf (get config store key)).map EnvironmentError.config = some none := by
  simp [get, getInner, h, errOf, EnvironmentError.create, EnvironmentError.withMessage]

/-- Witness for C5 at a key absent from the schema while the store does hold a
value for it. -/
theorem claim5_witness :
    lookupConfig [("A", EnvironmentVariableConfig.string ⟨none, none, none⟩)] "B" = none
    ∧ (fun k => if k = "B" then some "value" else none : Store) "B" = some "value"
    ∧ (errOf (get [("A", EnvironmentVariableConfig.string ⟨none, none, none⟩)]
          (fun k => if k = "B" then some "value" else none) "B")).map EnvironmentError.type
        = some EnvironmentErrorType.variableUnknownError :=
  ⟨by decide, rfl,
    (claim5_unknown_key [("A", EnvironmentVariableConfig.string ⟨none, none, none⟩)]
      (fun k => if k = "B" then some "value" else none) "B" (by decide)).2.1⟩

/-- C10: for a number config that 0 does not violate, get on a key whose raw
store value trims to the empty string succeeds with the number 0 rather than
failing, because the Number() conversion of such strings yields 0, not NaN. -/
theorem claim10_blank_string_is_zero (config : EnvironmentConfig) (store : Store)
    (key : String) (ncfg : NumberEnvironmentVariableConfig) (raw : String)
    (hc : lookupConfig config key = some (.number ncfg))
    (hs : store key = some raw)
    (hw : jsTrim raw = "")
    (hmin : ncfg.min.any (fun m => JSNum.jlt (.fin ⟨0, 1⟩) m) = false)
    (hmax : ncfg.max.any (fun m => JSNum.jlt m (.fin ⟨0, 1⟩)) = false) :
    get config store key = some (.ok (.num (.fin ⟨0, 1⟩))) := by
  have hl : jsTrimList raw.data = [] := congrArg String.data hw
  have hz : jsToNumber raw = .fin ⟨0, 1⟩ := by
    simp [jsToNumber, hl, parseNumericLiteral]
  simp [get, getInner, hc, hs, parseAsNumber, hz, JSNum.isNaN, JSNum.isInteger,
    hmin, hmax, constructResult, Result.map, Result.mapErr]

/-- Witness for C10: a whitespace-only raw value under an unconstrained number
config parses to 0. -/
theorem claim10_witness :
    jsTrim "   " = ""
    ∧ get [("N", EnvironmentVariableConfig.number ⟨none, none, none, none⟩)]
        (fun k => if k = "N" then some "   " else none) "N"
        = some (.ok (.num (.fin ⟨0, 1⟩))) :=
  ⟨by decide,
    claim10_blank_string_is_zero
      [("N", EnvironmentVariableConfig.number ⟨none, none, none, none⟩)]
      (fun k => if k = "N" then some "   " else none) "N"
      ⟨none, none, none, none⟩ "   " (by decide) rfl (by decide) rfl rfl⟩

/-- C2: the number parser converts the raw string with Number() and then
checks, in order: NaN, integer format, minimum (strict violation only, so the
bound is inclusive), maximum (likewise inclusive), returning the parsed number
when no check fires, with the exact error texts of the source. -/
theorem claim2_number_checks (cfg : NumberEnvironmentVariableConfig) (raw : String) :
    ((jsToNumber raw).isNaN = true → parseAsNumber raw cfg = .err "the value is not a number")
    ∧ ((jsToNumber raw).isNaN = false → cfg.format = some NumberFormat.integer →
        (jsToNumber raw).isInteger = false →
        parseAsNumber raw cfg = .err "the value is not an integer")
    ∧ ((jsToNumber raw).isNaN = false →
        (cfg.format == some NumberFormat.integer && !(jsToNumber raw).isInteger) = false →
        cfg.min.any (fun m => (jsToNumber raw).jlt m) = true →
        parseAsNumber raw cfg = .err "the value is less than the minimum")
    ∧ ((jsToNumber raw).isNaN = false →
        (cfg.format == some NumberFormat.integer && !(jsToNumber raw).isInteger) = false →
        cfg.min.any (fun m => (jsToNumber raw).jlt m) = false →
        cfg.max.any (fun m => m.jlt (jsToNumber raw)) = true →
        parseAsNumber raw cfg = .err "the value is greater than the maximum")
    ∧ ((jsToNumber raw).isNaN = false →
        (cfg.format == some NumberFormat.integer && !(jsToNumber raw).isInteger) = false →
        cfg.min.any (fun m => (jsToNumber raw).jlt m) = false →
        cfg.max.any (fun m => m.jlt (jsToNumber raw)) = false →
        parseAsNumber raw cfg = .ok (jsToNumber raw)) := by
  refine ⟨fun h1 => ?_, fun h1 h2 h3 => ?_, fun h1 h2 h3 => ?_,
    fun h1 h2 h3 h4 => ?_, fun h1 h2 h3 h4 => ?_⟩
  · simp [parseAsNumber, h1]
  · simp [parseAsNumber, h1, h2, h3]
  · simp [parseAsNumber, h1, h2, h3]
  · simp [parseAsNumber, h1, h2, h3, h4]
  · simp [parseAsNumber, h1, h2, h3, h4]

/-- Witness for C2 covering each branch, the inclusive bounds included: 42
passes with min and max both 42. -/
theorem claim2_witness :
    parseAsNumber "not a number" ⟨none, none, none, none⟩ = .err "the value is not a number"
    ∧ parseAsNumber "42.5" ⟨none, some NumberFormat.integer, none, none⟩
        = .err "the value is not an integer"
    ∧ parseAsNumber "0" ⟨none, none, some (.fin ⟨1, 1⟩), none⟩
        = .err "the value is less than the minimum"
    ∧ parseAsNumber "11" ⟨none, none, none, some (.fin ⟨10, 1⟩)⟩
        = .err "the value is greater than the maximum"
    ∧ parseAsNumber "42" ⟨none, none, some (.fin ⟨42, 1⟩), some (.fin ⟨42, 1⟩)⟩
        = .ok (.fin ⟨42, 1⟩) :=
  ⟨(claim2_number_checks ⟨none, none, none, none⟩ "not a number").1 (by decide),
    (claim2_number_checks ⟨none, some NumberFormat.integer, none, none⟩ "42.5").2.1
      (by decide) rfl (by decide),
    (claim2_number_checks ⟨none, none, some (.fin ⟨1, 1⟩), none⟩ "0").2.2.1
      (by decide) (by decide) (by decide),
    (claim2_number_checks ⟨none, none, none, some (.fin ⟨10, 1⟩)⟩ "11").2.2.2.1
      (by decide) (by decide) (by decide) (by decide),
    (claim2_number_checks ⟨none, none, some (.fin ⟨42, 1⟩), some (.fin ⟨42, 1⟩)⟩ "42").2.2.2.2
      (by decide) (by decide) (by decide) (by decide)⟩

/-- C3 counterexample: the claim reads membership as a case-insensitive
comparison, but the code lowercases only the raw value and matches the list
entries verbatim. With validTrueValues set to the single entry TRUE, the raw
value TRUE is a case-insensitive member of the list, yet the parser rejects
it. -/
theorem claim3_counterexample :
    specCaseInsensitiveMember "TRUE" ["TRUE"] = true
    ∧ parseAsBoolean "TRUE" ⟨none, some ["TRUE"], none⟩ = .err "the value is not a boolean" :=
  ⟨by decide, by decide⟩

/-- C3 amended: the boolean parser lowercases the raw value and compares it
verbatim to the entries of validTrueValues (defaulting to true, 1, yes, y) and
then validFalseValues (defaulting to false, 0, no, n); the true-list check
precedes the false-list check; otherwise it errors. When the true list is left
to its default, success-with-true coincides with case-insensitive membership,
because the default entries are lowercase. -/
theorem claim3_boolean_match (cfg : BooleanEnvironmentVariableConfig) (raw : String) :
    (jsToLower raw ∈ cfg.validTrueValues.getD DEFAULT_VALID_TRUE_VALUES →
      parseAsBoolean raw cfg = .ok true)
    ∧ (jsToLower raw ∉ cfg.validTrueValues.getD DEFAULT_VALID_TRUE_VALUES →
        jsToLower raw ∈ cfg.validFalseValues.getD DEFAULT_VALID_FALSE_VALUES →
        parseAsBoolean raw cfg = .ok false)
    ∧ (jsToLower raw ∉ cfg.validTrueValues.getD DEFAULT_VALID_TRUE_VALUES →
        jsToLower raw ∉ cfg.validFalseValues.getD DEFAULT_VALID_FALSE_VALUES →
        parseAsBoolean raw cfg = .err "the value is not a boolean")
    ∧ (cfg.validTrueValues = none →
        (parseAsBoolean raw cfg = .ok true
          ↔ specCaseInsensitiveMember raw DEFAULT_VALID_TRUE_VALUES = true)) := by
  have c1 : jsToLower raw ∈ cfg.validTrueValues.getD DEFAULT_VALID_TRUE_VALUES →
      parseAsBoolean raw cfg = .ok true := fun h1 => by simp [parseAsBoolean, h1]
  have c2 : jsToLower raw ∉ cfg.validTrueValues.getD DEFAULT_VALID_TRUE_VALUES →
      jsToLower raw ∈ cfg.validFalseValues.getD DEFAULT_VALID_FALSE_VALUES →
      parseAsBoolean raw cfg = .ok false := fun h1 h2 => by simp [parseAsBoolean, h1, h2]
  have c3 : jsToLower raw ∉ cfg.validTrueValues.getD DEFAULT_VALID_TRUE_VALUES →
      jsToLower raw ∉ cfg.validFalseValues.getD DEFAULT_VALID_FALSE_VALUES →
      parseAsBoolean raw cfg = .err "the value is not a boolean" :=
    fun h1 h2 => by simp [parseAsBoolean, h1, h2]
  have hspec : specCaseInsensitiveMember raw DEFAULT_VALID_TRUE_VALUES = true
      ↔ jsToLower raw ∈ DEFAULT_VALID_TRUE_VALUES := by
    simp only [specCaseInsensitiveMember, List.any_eq_true, beq_iff_eq]
    constructor
    · rintro ⟨v, hv, he⟩
      simp only [DEFAULT_VALID_TRUE_VALUES, List.mem_cons, List.not_mem_nil, or_false] at hv
      rcases hv with hv | hv | hv | hv <;> subst hv <;> rw [← he] <;> decide
    · intro hm
      simp only [DEFAULT_VALID_TRUE_VALUES, List.mem_cons, List.not_mem_nil, or_false] at hm
      rcases hm with hm | hm | hm | hm
      · exact ⟨"true", by decide, by rw [hm]; decide⟩
      · exact ⟨"1", by decide, by rw [hm]; decide⟩
      · exact ⟨"yes", by decide, by rw [hm]; decide⟩
      · exact ⟨"y", by decide, by rw [hm]; decide⟩
  refine ⟨c1, c2, c3, fun hd => ?_⟩
  rw [hd] at c1 c2 c3
  simp only [Option.getD_none] at c1 c2 c3
  rw [hspec]
  constructor
  · intro h
    by_cases h1 : jsToLower raw ∈ DEFAULT_VALID_TRUE_VALUES
    · exact h1
    · by_cases h2 : jsToLower raw ∈ cfg.validFalseValues.getD DEFAULT_VALID_FALSE_VALUES
      · rw [c2 h1 h2] at h
        exact absurd h (by simp)
      · rw [c3 h1 h2] at h
        exact absurd h (by simp)
  · exact c1

/-- Witness for the amended C3: YES matches the default true list
case-insensitively, exact entries match custom lists, the true check wins, and
unmatched values error. -/
theorem claim3_witness :
    parseAsBoolean "YES" ⟨none, none, none⟩ = .ok true
    ∧ parseAsBoolean "no" ⟨none, none, none⟩ = .ok false
    ∧ parseAsBoolean "x" ⟨none, some ["x"], some ["x"]⟩ = .ok true
    ∧ parseAsBoolean "maybe" ⟨none, none, none⟩ = .err "the value is not a boolean" :=
  ⟨(claim3_boolean_match ⟨none, none, none⟩ "YES").1 (by decide),
    (claim3_boolean_match ⟨none, none, none⟩ "no").2.1 (by decide) (by decide),
    (claim3_boolean_match ⟨none, some ["x"], some ["x"]⟩ "x").1 (by decide),
    (claim3_boolean_match ⟨none, none, none⟩ "maybe").2.2.1 (by decide) (by decide)⟩

/-- C4: with a pattern, the string parser is decided solely by the compiled
pattern test (so no emptiness check applies); without one, a raw value that
trims to empty errors unless shouldAllowEmpty is true; every success returns
the raw string unchanged and untrimmed. -/
theorem claim4_string_rules (cfg : StringEnvironmentVariableConfig) (raw : String) :
    (∀ p re, cfg.pattern = some p → compilePattern p = some re →
      parseAsString raw cfg
        = some (if re.test raw then .ok raw else .err "the value does not match the pattern"))
    ∧ (cfg.pattern = none → cfg.shouldAllowEmpty ≠ some true → jsTrim raw = "" →
        parseAsString raw cfg = some (.err "the value is empty"))
    ∧ (cfg.pattern = none → (cfg.shouldAllowEmpty = some true ∨ jsTrim raw ≠ "") →
        parseAsString raw cfg = some (.ok raw))
    ∧ (∀ v, parseAsString raw cfg = some (.ok v) → v = raw) := by
  refine ⟨fun p re hp hre => ?_, fun hp ha hw => ?_, fun hp h => ?_, fun v hv => ?_⟩
  · by_cases ht : re.test raw = true <;> simp [parseAsString, hp, hre, ht]
  · simp [parseAsString, hp, ha, hw, bne_iff_ne]
  · rcases h with h | h <;> simp [parseAsString, hp, h, bne_iff_ne]
  · revert hv
    unfold parseAsString
    rcases hp : cfg.pattern with _ | p
    · by_cases hc : (cfg.shouldAllowEmpty != some true && (jsTrim raw == "")) = true <;>
        (simp [hc]; all_goals (intro hv; simp_all))
    · rcases hre : compilePattern p with _ | re
      · simp [hre]
      · by_cases ht : re.test raw = true <;> (simp [hre, ht]; all_goals (intro hv; simp_all))

/-- Witness for C4: a matching pattern passes the untrimmed raw through, a
pattern that matches the empty raw passes it despite emptiness, a bare empty
raw errors, and shouldAllowEmpty admits it. -/
theorem claim4_witness :
    parseAsString " abc " ⟨none, some (.text "b"), none⟩ = some (.ok " abc ")
    ∧ parseAsString "" ⟨none, some (.text ""), none⟩ = some (.ok "")
    ∧ parseAsString "" ⟨none, none, none⟩ = some (.err "the value is empty")
    ∧ parseAsString "" ⟨none, none, some true⟩ = some (.ok "") :=
  ⟨by rw [(claim4_string_rules ⟨none, some (.text "b"), none⟩ " abc ").1
        (.text "b") ⟨"b"⟩ rfl (by decide)]
      decide,
    by rw [(claim4_string_rules ⟨none, some (.text ""), none⟩ "").1
        (.text "") ⟨""⟩ rfl (by decide)]
       decide,
    (claim4_string_rules ⟨none, none, none⟩ "").2.1 rfl (by decide) (by decide),
    (claim4_string_rules ⟨none, none, some true⟩ "").2.2.1 rfl (Or.inl rfl)⟩

/-- C8 counterexample: a string config whose pattern is the text source "(" is
accepted at schema construction, but with a raw value present the RegExp
compilation throws inside get, so get raises instead of returning an error
result (the escaped exception is modelled as none). -/
theorem claim8_counterexample :
    get [("KEY", EnvironmentVariableConfig.string ⟨none, some (.text "("), none⟩)]
      (fun _ => some "x") "KEY" = none := by decide

/-- C8 amended: get never throws provided the consulted config does not carry
a text-form pattern with an invalid regular-expression source; under that
proviso every failure, parse failures under a lazily compiled text pattern
included, is returned inside the result container. -/
theorem claim8_get_no_throw (config : EnvironmentConfig) (store : Store) (key : String)
    (h : consultedPatternCompiles config key = true) :
    (get config store key).isSome = true := by
  rcases hc : lookupConfig config key with _ | cfg
  · simp [get, getInner, hc]
  · rcases hs : store key with _ | raw
    · rcases hd : cfg.defaultValue with _ | d <;> simp [get, getInner, hc, hs, hd]
    · rcases cfg with scfg | ncfg | bcfg | ecfg | dcfg
      · rcases hp : scfg.pattern with _ | p
        · simp only [get, getInner, hc, hs, parseAsString, hp]
          by_cases he : (scfg.shouldAllowEmpty != some true && (jsTrim raw == "")) = true <;>
            simp [he]
        · have hcomp : (compilePattern p).isSome = true := by
            simpa only [consultedPatternCompiles, hc, hp] using h
          rcases hre : compilePattern p with _ | re
          · rw [hre] at hcomp
            simp at hcomp
          · simp only [get, getInner, hc, hs, parseAsString, hp, hre]
            by_cases ht : re.test raw = true <;> simp [ht]
      · simp [get, getInner, hc, hs]
      · simp [get, getInner, hc, hs]
      · simp [get, getInner, hc, hs]
      · simp [get, getInner, hc, hs]

/-- Witness for the amended C8: with a valid text pattern and a raw value
present, get returns a result container. -/
theorem claim8_witness :
    consultedPatternCompiles
        [("KEY", EnvironmentVariableConfig.string ⟨none, some (.text "abc"), none⟩)] "KEY" = true
    ∧ (get [("KEY", EnvironmentVariableConfig.string ⟨none, some (.text "abc"), none⟩)]
        (fun _ => some "x") "KEY").isSome = true :=
  ⟨by decide,
    claim8_get_no_throw
      [("KEY", EnvironmentVariableConfig.string ⟨none, some (.text "abc"), none⟩)]
      (fun _ => some "x") "KEY" (by decide)⟩

/-- Helper: an error produced by constructResult has had its message
overridden exactly once. -/
theorem constructResult_err_overrides {T : Type} (r : Result T String) (key : String)
    (cfg : EnvironmentVariableConfig) (raw : String) (e : EnvironmentError)
    (h : constructResult r key cfg raw = .err e) : e.msgOverrides = 1 := by
  cases r with
  | ok v => simp [constructResult, Result.mapErr] at h
  | err s =>
    simp only [constructResult, Result.mapErr, Result.err.injEq] at h
    rw [← h]
    rfl

/-- Helper: any error result of getInner has had its message overridden at
most once. -/
theorem getInner_err_overrides (config : EnvironmentConfig) (store : Store) (key : String)
    (e : EnvironmentError) (h : getInner config store key = some (.err e)) :
    e.msgOverrides ≤ 1 := by
  rcases hc : lookupConfig config key with _ | cfg
  · simp only [getInner, hc, Option.some.injEq, Result.err.injEq] at h
    rw [← h]
    simp [EnvironmentError.withMessage, EnvironmentError.create]
  · rcases hs : store key with _ | raw
    · rcases hd : cfg.defaultValue with _ | d
      · simp only [getInner, hc, hs, hd, Option.some.injEq, Result.err.injEq] at h
        rw [← h]
        simp [EnvironmentError.create]
      · simp [getInner, hc, hs, hd] at h
    · rcases cfg with scfg | ncfg | bcfg | ecfg | dcfg
      · simp only [getInner, hc, hs] at h
        rcases hps : parseAsString raw scfg with _ | r
        · rw [hps] at h
          simp at h
        · rw [hps] at h
          simp only [Option.map_some', Option.some.injEq] at h
          exact le_of_eq (constructResult_err_overrides _ _ _ _ _ h)
      · simp only [getInner, hc, hs, Option.some.injEq] at h
        exact le_of_eq (constructResult_err_overrides _ _ _ _ _ h)
      · simp only [getInner, hc, hs, Option.some.injEq] at h
        exact le_of_eq (constructResult_err_overrides _ _ _ _ _ h)
      · simp only [getInner, hc, hs, Option.some.injEq] at h
        exact le_of_eq (constructResult_err_overrides _ _ _ _ _ h)
      · simp only [getInner, hc, hs, Option.some.injEq] at h
        exact le_of_eq (constructResult_err_overrides _ _ _ _ _ h)

/-- C9 counterexample: getExpect with an explicit override message on a
failing parse applies the fluent setter to an error whose message was already
overridden once at the failure site, for two overrides of the same error
during one operation; the ghost counter records both. -/
theorem claim9_counterexample :
    (raisedError (getExpect [("NUM", EnvironmentVariableConfig.number ⟨none, none, none, none⟩)]
        (fun _ => some "abc") "NUM" (some "boom"))).map EnvironmentError.msgOverrides
      = some 2 := by decide

/-- C9 amended: the message of every EnvironmentError defaults to the generic
text at construction and each withMessage call replaces it; any error returned
by get has been overridden at most once, and getExpect may apply one further
override when given an explicit message, for at most two in that operation. -/
theorem claim9_message_overrides (config : EnvironmentConfig) (store : Store) (key : String) :
    (∀ t k c r, (EnvironmentError.create t k c r).message
        = "Error getting environment variable " ++ k
      ∧ (EnvironmentError.create t k c r).msgOverrides = 0)
    ∧ (∀ e m, (EnvironmentError.withMessage e m).message = m
        ∧ (EnvironmentError.withMessage e m).msgOverrides = e.msgOverrides + 1)
    ∧ (∀ e, get config store key = some (.err e) → e.msgOverrides ≤ 1)
    ∧ (∀ e, getExpect config store key none = some (Except.error e) → e.msgOverrides ≤ 1)
    ∧ (∀ m e, getExpect config store key (some m) = some (Except.error e) →
        e.msgOverrides ≤ 2) := by
  refine ⟨fun t k c r => ⟨rfl, rfl⟩, fun e m => ⟨rfl, rfl⟩,
    fun e h => getInner_err_overrides config store key e h, fun e h => ?_, fun m e h => ?_⟩
  · rcases hg : getInner config store key with _ | r
    · simp [getExpect, hg] at h
    · rw [getExpect, hg, Option.map_some'] at h
      cases r with
      | ok v => simp at h
      | err e0 =>
        simp only [Option.some.injEq, Except.error.injEq] at h
        rw [← h]
        exact getInner_err_overrides config store key e0 hg
  · rcases hg : getInner config store key with _ | r
    · simp [getExpect, hg] at h
    · rw [getExpect, hg, Option.map_some'] at h
      cases r with
      | ok v => simp at h
      | err e0 =>
        simp only [Option.some.injEq, Except.error.injEq] at h
        rw [← h]
        have := getInner_err_overrides config store key e0 hg
        simp only [EnvironmentError.withMessage]
        omega

/-- Witness for the amended C9: the concrete double override stops at two. -/
theorem claim9_witness :
    getExpect [("NUM", EnvironmentVariableConfig.number ⟨none, none, none, none⟩)]
        (fun _ => some "abc") "NUM" (some "boom")
      = some (Except.error ⟨EnvironmentErrorType.variableParseError, "NUM",
          some (.number ⟨none, none, none, none⟩), some "abc", "boom", 2⟩)
    ∧ (⟨EnvironmentErrorType.variableParseError, "NUM",
          some (.number ⟨none, none, none, none⟩), some "abc", "boom", 2⟩ :
        EnvironmentError).msgOverrides ≤ 2 :=
  ⟨rfl,
    (claim9_message_overrides [("NUM", EnvironmentVariableConfig.number ⟨none, none, none, none⟩)]
        (fun _ => some "abc") "NUM").2.2.2.2 "boom"
      ⟨EnvironmentErrorType.variableParseError, "NUM",
        some (.number ⟨none, none, none, none⟩), some "abc", "boom", 2⟩ rfl⟩

/-- Helper: the overridden store produced by the save-and-set loop is the left
fold of set over the overrides. -/
theorem saveAndSet_snd (vars : List (String × Option String)) : ∀ store : Store,
    (saveAndSet store vars).2 = vars.foldl (fun s p => setVar s p.1 p.2) store := by
  induction vars with
  | nil => intro store; rfl
  | cons p rest ih =>
    intro store
    simp only [saveAndSet, List.foldl_cons]
    exact ih (setVar store p.1 p.2)

/-- Helper: with pairwise distinct override keys, the save loop records the
original store value of every key. -/
theorem saveAndSet_fst (vars : List (String × Option String)) : ∀ store : Store,
    (vars.map Prod.fst).Nodup →
    (saveAndSet store vars).1 = vars.map (fun p => (p.1, store p.1)) := by
  induction vars with
  | nil => intro store _; rfl
  | cons p rest ih =>
    intro store hnd
    simp only [List.map_cons, List.nodup_cons] at hnd
    simp only [saveAndSet, List.map_cons, getRaw]
    rw [ih (setVar store p.1 p.2) hnd.2]
    refine congrArg _ (List.map_congr_left ?_)
    intro q hq
    have hne : q.1 ≠ p.1 := by
      intro he
      exact hnd.1 (he ▸ List.mem_map_of_mem Prod.fst hq)
    simp [setVar, hne]

/-- Helper: folding set over an association list leaves keys outside the list
untouched. -/
theorem foldl_setVar_not_mem (l : List (String × Option String)) :
    ∀ (s : Store) (k : String), k ∉ l.map Prod.fst →
    (l.foldl (fun s p => setVar s p.1 p.2) s) k = s k := by
  induction l with
  | nil => intro s k _; rfl
  | cons p rest ih =>
    intro s k hk
    simp only [List.map_cons, List.mem_cons, not_or] at hk
    rw [List.foldl_cons, ih _ _ hk.2]
    simp [setVar, hk.1]

/-- Helper: folding set over an association list with pairwise distinct keys
writes each listed value at its key. -/
theorem foldl_setVar_mem (l : List (String × Option String)) :
    ∀ (s : Store) (k : String) (v : Option String), (l.map Prod.fst).Nodup →
    (k, v) ∈ l → (l.foldl (fun s p => setVar s p.1 p.2) s) k = v := by
  induction l with
  | nil => intro s k v _ hm; cases hm
  | cons p rest ih =>
    intro s k v hnd hm
    simp only [List.map_cons, List.nodup_cons] at hnd
    rw [List.foldl_cons]
    rcases List.mem_cons.mp hm with he | hm2
    · rw [← he] at hnd ⊢
      rw [foldl_setVar_not_mem rest _ k hnd.1]
      simp [setVar]
    · exact ih _ _ _ hnd.2 hm2

/-- C6: for distinct override keys (as in a JavaScript object literal) and a
function returning normally, withVars restores every overridden key to its
pre-call raw value, those that were undefined included, and returns the result
of the function as run against the fully overridden store. -/
theorem claim6_withVars {Res : Type} (store : Store) (vars : List (String × Option String))
    (fn : Store → Store × Res) (hnd : (vars.map Prod.fst).Nodup) :
    (∀ k, k ∈ vars.map Prod.fst → (withVars store vars fn).1 k = getRaw store k)
    ∧ (withVars store vars fn).2
        = (fn (vars.foldl (fun s p => setVar s p.1 p.2) store)).2 := by
  constructor
  · intro k hk
    show ((saveAndSet store vars).1.foldl (fun s p => setVar s p.1 p.2)
        (fn (saveAndSet store vars).2).1) k = getRaw store k
    have hfst := saveAndSet_fst vars store hnd
    have hnd2 : ((saveAndSet store vars).1.map Prod.fst).Nodup := by
      rw [hfst, List.map_map]
      simpa using hnd
    have hmem : (k, store k) ∈ (saveAndSet store vars).1 := by
      rw [hfst]
      obtain ⟨p, hp, he⟩ := List.mem_map.mp hk
      exact List.mem_map.mpr ⟨p, hp, by rw [he]⟩
    exact foldl_setVar_mem _ _ _ _ hnd2 hmem
  · show (fn (saveAndSet store vars).2).2 = _
    rw [saveAndSet_snd]

/-- Witness for C6: an override of a key with a prior value and one without;
both are restored and the function result, read from the overridden store, is
returned. -/
theorem claim6_witness :
    (withVars (fun k => if k = "A" then some "old" else none)
        [("A", some "x"), ("B", some "y")] (fun s => (s, s "A"))).1 "A"
      = getRaw (fun k => if k = "A" then some "old" else none) "A"
    ∧ (withVars (fun k => if k = "A" then some "old" else none)
        [("A", some "x"), ("B", some "y")] (fun s => (s, s "B"))).1 "B"
      = getRaw (fun k => if k = "A" then some "old" else none) "B"
    ∧ (withVars (fun k => if k = "A" then some "old" else none)
        [("A", some "x"), ("B", some "y")] (fun s => (s, s "A"))).2 = some "x" :=
  ⟨(claim6_withVars (fun k => if k = "A" then some "old" else none)
      [("A", some "x"), ("B", some "y")] (fun s => (s, s "A")) (by decide)).1 "A" (by decide),
    (claim6_withVars (fun k => if k = "A" then some "old" else none)
      [("A", some "x"), ("B", some "y")] (fun s => (s, s "B")) (by decide)).1 "B" (by decide),
    by rw [(claim6_withVars (fun k => if k = "A" then some "old" else none)
        [("A", some "x"), ("B", some "y")] (fun s => (s, s "A")) (by decide)).2]
       rfl⟩

/-- Helper: when every key of the iterated list succeeds, the snapshot
iteration returns the list of unwrapped values in order. -/
theorem snapshotAux_all_ok (config : EnvironmentConfig) (store : Store) :
    ∀ l : List (String × EnvironmentVariableConfig),
    (∀ p ∈ l, (getOk (getInner config store p.1)).isSome = true) →
    snapshotAux config store l
      = some (Except.ok (l.map (fun p =>
          (p.1, (getOk (getInner config store p.1)).getD (EnvValue.str ""))))) := by
  intro l
  induction l with
  | nil => intro _; rfl
  | cons p rest ih =>
    intro h
    have hp := h p (List.mem_cons_self p rest)
    rcases hg : getInner config store p.1 with _ | r
    · rw [hg] at hp
      simp [getOk] at hp
    · rcases r with v | e
      · simp only [snapshotAux, hg, List.map_cons]
        rw [ih (fun q hq => h q (List.mem_cons_of_mem p hq))]
        simp [getOk, hg]
      · rw [hg] at hp
        simp [getOk] at hp

/-- Helper: the snapshot iteration propagates the error of the first failing
key once every earlier key has succeeded. -/
theorem snapshotAux_first_err (config : EnvironmentConfig) (store : Store)
    (k : String) (c : EnvironmentVariableConfig) (e : EnvironmentError)
    (hk : getInner config store k = some (.err e)) :
    ∀ (pre post : List (String × EnvironmentVariableConfig)),
    (∀ p ∈ pre, (getOk (getInner config store p.1)).isSome = true) →
    snapshotAux config store (pre ++ (k, c) :: post) = some (Except.error e) := by
  intro pre
  induction pre with
  | nil => intro post _; simp only [List.nil_append, snapshotAux, hk]
  | cons q pre ih =>
    intro post h
    have hq := h q (List.mem_cons_self q pre)
    rcases hg : getInner config store q.1 with _ | r
    · rw [hg] at hq
      simp [getOk] at hq
    · rcases r with v | e0
      · show snapshotAux config store ((q :: pre) ++ (k, c) :: post) = some (Except.error e)
        rw [List.cons_append]
        simp only [snapshotAux, hg]
        rw [ih post (fun p hp => h p (List.mem_cons_of_mem q hp))]
      · rw [hg] at hq
        simp [getOk] at hq

/-- C7: snapshot iterates every schema key; when each key succeeds it returns
the map of unwrapped values, and when some key fails (all earlier keys
succeeding) the whole snapshot aborts by propagating that key's fatal error,
never returning a partial snapshot. -/
theorem claim7_snapshot (config : EnvironmentConfig) (store : Store) :
    ((∀ p ∈ config, (getOk (getInner config store p.1)).isSome = true) →
      snapshot config store
        = some (Except.ok (config.map (fun p =>
            (p.1, (getOk (getInner config store p.1)).getD (EnvValue.str ""))))))
    ∧ (∀ pre k c post e, config = pre ++ (k, c) :: post →
        (∀ p ∈ pre, (getOk (getInner config store p.1)).isSome = true) →
        getInner config store k = some (.err e) →
        snapshot config store = some (Except.error e)) := by
  constructor
  · intro h
    exact snapshotAux_all_ok config store config h
  · intro pre k c post e hsplit hpre hk
    subst hsplit
    exact snapshotAux_first_err _ store k c e hk pre post hpre

/-- Witness for C7: a satisfied one-key schema snapshots to its value map, and
a one-key schema with a missing required value propagates the not-found
error. -/
theorem claim7_witness :
    snapshot [("A", EnvironmentVariableConfig.string ⟨none, none, none⟩)]
        (fun _ => some "val")
      = some (Except.ok [("A", EnvValue.str "val")])
    ∧ snapshot [("A", EnvironmentVariableConfig.string ⟨none, none, none⟩)] (fun _ => none)
      = some (Except.error (EnvironmentError.create
          EnvironmentErrorType.variableNotFoundError "A"
          (some (EnvironmentVariableConfig.string ⟨none, none, none⟩)) none)) :=
  ⟨by rw [(claim7_snapshot [("A", EnvironmentVariableConfig.string ⟨none, none, none⟩)]
        (fun _ => some "val")).1 (by decide)]
      rfl,
    (claim7_snapshot [("A", EnvironmentVariableConfig.string ⟨none, none, none⟩)]
        (fun _ => none)).2 [] "A" (EnvironmentVariableConfig.string ⟨none, none, none⟩) []
      (EnvironmentError.create EnvironmentErrorType.variableNotFoundError "A"
        (some (EnvironmentVariableConfig.string ⟨none, none, none⟩)) none)
      rfl (by simp) rfl⟩

end TsEnv
